/-
Verification of the rate limiter and tool-proxy layer of the
nia-epstein-ai repository (a set of near-identical Next.js chat
front-ends wrapping the Nia search API).

Embedded components:
  * the fixed-window IP rate limiter of `src/app/api/chat/route.ts`
    (`checkRateLimit`, `cleanupRateLimitMap`, the `POST` handler);
  * the tool proxy layer of `src/lib/nia-tools.ts`, which is a
    concatenation of three variants (Chromium, Epstein, Naval); each
    variant is embedded in its own namespace.

Modelling conventions:
  * `Date.now()` is an explicit `now : Nat` parameter (milliseconds);
    the two reads of `Date.now()` inside one `checkRateLimit` call are
    collapsed into one value, as they denote the same instant.
  * The JS `Map` holding the rate-limit entries is an association list
    with unique keys; `mapSet` replaces every binding of the key (on
    the duplicate-free states a JS `Map` guarantees, this is exactly
    `Map.set`: update in place if present, append otherwise).
  * Tool argument validation follows the zod schemas declared in the
    source: a number with `.min(a).max(b)` is rejected outside `[a,b]`
    (zod validates, it does not clamp); `.default(d)` substitutes `d`
    for an absent value; `.optional()` passes `undefined` through.
  * A tool execution is split into a pure `...Plan` function (argument
    validation, source resolution and request construction; an
    `Except.error` means the tool throws before any HTTP request is
    issued) and a pure `...Respond` function (mapping the single
    upstream HTTP response to the returned payload or thrown error;
    the layer performs no retry, so `Respond` consumes exactly one
    response).
  * JS objects sent as JSON bodies are `List (String × JVal)`;
    `JSON.stringify` drops keys whose value is `undefined`, modelled
    by `serializeBody`.
-/
import Mathlib

namespace NiaApp

/-! ## JS values and JSON bodies -/

/-- A JavaScript value as it appears in request/response objects. -/
inductive JVal where
  | str : String → JVal
  | num : Int → JVal
  | bool : Bool → JVal
  | null : JVal
  | jsUndefined : JVal
  | arr : List JVal → JVal
  | obj : List (String × JVal) → JVal
deriving Repr

/-- `true` exactly on the JS value `undefined`. -/
def JVal.isJsUndefined : JVal → Bool
  | .jsUndefined => true
  | _ => false

/-- `true` exactly on the JS value `null`. -/
def JVal.isNull : JVal → Bool
  | .null => true
  | _ => false

/-- Property access `o.f` on a JS object: `undefined` when absent. -/
def JVal.getField : JVal → String → JVal
  | .obj kvs, f =>
    match kvs.find? (fun kv => kv.1 = f) with
    | some kv => kv.2
    | none => .jsUndefined
  | _, _ => .jsUndefined

/-- `JSON.stringify` on an object literal drops `undefined`-valued keys. -/
def serializeBody (body : List (String × JVal)) : List (String × JVal) :=
  body.filter (fun kv => !kv.2.isJsUndefined)

/-- Whether a serialized body contains a given key. -/
def assocHasKey (body : List (String × JVal)) (k : String) : Bool :=
  body.any (fun kv => kv.1 = k)

/-! ## Rate limiter (`src/app/api/chat/route.ts`) -/

/-- One entry of the in-memory rate-limit `Map`:
`{ count: number; resetAt: number }`. -/
structure RLEntry where
  count : Nat
  resetAt : Nat
deriving DecidableEq, Repr

/-- `const RATE_LIMIT_WINDOW_MS = 60 * 1000`. -/
def RATE_LIMIT_WINDOW_MS : Nat := 60 * 1000

/-- `const MAX_REQUESTS_PER_WINDOW = 10`. -/
def MAX_REQUESTS_PER_WINDOW : Nat := 10

/-- The module-level mutable state of the limiter: `lastCleanup` and the
`rateLimitMap`. -/
structure RLState where
  lastCleanup : Nat
  map : List (String × RLEntry)
deriving DecidableEq, Repr

/-- `rateLimitMap.get(ip)`. -/
def mapGet (m : List (String × RLEntry)) (k : String) : Option RLEntry :=
  match m with
  | [] => none
  | (a, b) :: rest => if a = k then some b else mapGet rest k

/-- `rateLimitMap.set(k, v)`: update the binding in place when the key is
present, append otherwise.  (On duplicate-free key lists, replacing every
binding of `k` coincides with the JS `Map.set`.) -/
def mapSet (m : List (String × RLEntry)) (k : String) (v : RLEntry) :
    List (String × RLEntry) :=
  if m.any (fun kv => kv.1 = k) then
    m.map (fun kv => if kv.1 = k then (k, v) else kv)
  else
    m ++ [(k, v)]

/-- A JS `Map` never holds two bindings of the same key. -/
def keysNodup (m : List (String × RLEntry)) : Prop :=
  (m.map Prod.fst).Nodup

instance (m : List (String × RLEntry)) : Decidable (keysNodup m) := by
  unfold keysNodup; infer_instance

/-- `cleanupRateLimitMap()`: at most once per 5 minutes, delete every
entry whose `resetAt` is strictly in the past and record the sweep time. -/
def cleanupRateLimitMap (now : Nat) (s : RLState) : RLState :=
  if now - s.lastCleanup < 5 * 60 * 1000 then s
  else
    { lastCleanup := now
      map := s.map.filter (fun kv => !decide (kv.2.resetAt < now)) }

/-- The result record of `checkRateLimit`. -/
structure RLResult where
  allowed : Bool
  remaining : Nat
  resetAt : Nat
deriving DecidableEq, Repr

/-- The body of `checkRateLimit` after the `cleanupRateLimitMap()` call:
admit with a fresh window when no live entry exists, reject at the
ceiling, and increment otherwise.  `now > entry.resetAt` is written
`entry.resetAt < now`. -/
def checkRateLimitCore (ip : String) (now : Nat) (s1 : RLState) :
    RLResult × RLState :=
  match mapGet s1.map ip with
  | none =>
      (⟨true, MAX_REQUESTS_PER_WINDOW - 1, now + RATE_LIMIT_WINDOW_MS⟩,
       ⟨s1.lastCleanup, mapSet s1.map ip ⟨1, now + RATE_LIMIT_WINDOW_MS⟩⟩)
  | some entry =>
      if entry.resetAt < now then
        (⟨true, MAX_REQUESTS_PER_WINDOW - 1, now + RATE_LIMIT_WINDOW_MS⟩,
         ⟨s1.lastCleanup, mapSet s1.map ip ⟨1, now + RATE_LIMIT_WINDOW_MS⟩⟩)
      else if MAX_REQUESTS_PER_WINDOW ≤ entry.count then
        (⟨false, 0, entry.resetAt⟩, s1)
      else
        (⟨true, MAX_REQUESTS_PER_WINDOW - (entry.count + 1), entry.resetAt⟩,
         ⟨s1.lastCleanup, mapSet s1.map ip ⟨entry.count + 1, entry.resetAt⟩⟩)

/-- `checkRateLimit(ip)`: run the amortized sweep, then decide admission
on the swept table. -/
def checkRateLimit (ip : String) (now : Nat) (s : RLState) :
    RLResult × RLState :=
  checkRateLimitCore ip now (cleanupRateLimitMap now s)

/-- A live (unexpired) entry is visible through `get`, an expired or
absent one is not; this is the only part of the table a
`checkRateLimit` call on that key can observe. -/
def effEntry (now : Nat) : Option RLEntry → Option RLEntry
  | none => none
  | some e => if e.resetAt < now then none else some e

/-- The allowed/rejected outcomes that the calls on `key` inside a call
trace observe; each trace element is `(key, Date.now())`. -/
def outcomesFor (key : String) : List (String × Nat) → RLState → List Bool
  | [], _ => []
  | (k, t) :: rest, s =>
    let r := checkRateLimit k t s
    if k = key then r.1.allowed :: outcomesFor key rest r.2
    else outcomesFor key rest r.2

/-! ### Association-list lemmas -/

theorem mapGet_nil (k : String) : mapGet [] k = none := rfl

theorem mapGet_cons (kv : String × RLEntry) (rest : List (String × RLEntry))
    (k : String) :
    mapGet (kv :: rest) k = if kv.1 = k then some kv.2 else mapGet rest k := by
  cases kv; rfl

theorem mapGet_map_replace_self (m : List (String × RLEntry)) (k : String)
    (v : RLEntry) (h : m.any (fun kv => kv.1 = k) = true) :
    mapGet (m.map (fun kv => if kv.1 = k then (k, v) else kv)) k = some v := by
  induction m with
  | nil => simp at h
  | cons kv rest ih =>
    simp only [List.any_cons, Bool.or_eq_true, decide_eq_true_iff] at h
    by_cases hk : kv.1 = k
    · simp [List.map_cons, hk, mapGet_cons]
    · have h' : rest.any (fun kv => kv.1 = k) = true := by
        rcases h with h | h
        · exact absurd h hk
        · simpa using h
      simp [List.map_cons, hk, mapGet_cons, ih h']

theorem mapGet_map_replace_other (m : List (String × RLEntry)) (k j : String)
    (v : RLEntry) (hjk : j ≠ k) :
    mapGet (m.map (fun kv => if kv.1 = k then (k, v) else kv)) j =
      mapGet m j := by
  induction m with
  | nil => rfl
  | cons kv rest ih =>
    by_cases hk : kv.1 = k
    · have hkj : ¬k = j := fun h => hjk h.symm
      have hkvj : ¬kv.1 = j := by rw [hk]; exact hkj
      simp [List.map_cons, hk, mapGet_cons, hkj, hkvj, ih]
    · by_cases hj : kv.1 = j
      · simp [List.map_cons, hk, mapGet_cons, hj, hjk]
      · simp [List.map_cons, hk, mapGet_cons, hj, ih]

theorem mapGet_append_self (m : List (String × RLEntry)) (k : String)
    (v : RLEntry) (h : m.any (fun kv => kv.1 = k) = false) :
    mapGet (m ++ [(k, v)]) k = some v := by
  induction m with
  | nil => simp [mapGet_cons, mapGet]
  | cons kv rest ih =>
    simp only [List.any_cons, Bool.or_eq_false_iff,
      decide_eq_false_iff_not] at h
    simp [List.cons_append, mapGet_cons, h.1, ih h.2]

theorem mapGet_append_other (m : List (String × RLEntry)) (k j : String)
    (v : RLEntry) (hjk : j ≠ k) : mapGet (m ++ [(k, v)]) j = mapGet m j := by
  have hkj : ¬k = j := fun h => hjk h.symm
  induction m with
  | nil => simp [mapGet_cons, mapGet, hkj]
  | cons kv rest ih =>
    by_cases hj : kv.1 = j
    · simp [List.cons_append, mapGet_cons, hj]
    · simp [List.cons_append, mapGet_cons, hj, ih]

theorem mapGet_mapSet_self (m : List (String × RLEntry)) (k : String)
    (v : RLEntry) : mapGet (mapSet m k v) k = some v := by
  unfold mapSet
  split
  · rename_i h
    exact mapGet_map_replace_self m k v h
  · rename_i h
    exact mapGet_append_self m k v (by rwa [Bool.not_eq_true] at h)

theorem mapGet_mapSet_other (m : List (String × RLEntry)) (k j : String)
    (v : RLEntry) (hjk : j ≠ k) : mapGet (mapSet m k v) j = mapGet m j := by
  unfold mapSet
  split
  · exact mapGet_map_replace_other m k j v hjk
  · exact mapGet_append_other m k j v hjk

theorem mapGet_filter_keep (m : List (String × RLEntry)) (k : String)
    (e : RLEntry) (q : RLEntry → Bool) (h : mapGet m k = some e)
    (hq : q e = true) :
    mapGet (m.filter (fun kv => q kv.2)) k = some e := by
  induction m with
  | nil => simp [mapGet] at h
  | cons kv rest ih =>
    rw [mapGet_cons] at h
    by_cases hk : kv.1 = k
    · rw [if_pos hk] at h
      have he : kv.2 = e := by injection h
      rw [List.filter_cons, if_pos (by simp [he, hq])]
      rw [mapGet_cons, if_pos hk, he]
    · rw [if_neg hk] at h
      rw [List.filter_cons]
      split
      · rw [mapGet_cons, if_neg hk]; exact ih h
      · exact ih h

theorem mapGet_filter_none (m : List (String × RLEntry)) (k : String)
    (q : RLEntry → Bool) (h : mapGet m k = none) :
    mapGet (m.filter (fun kv => q kv.2)) k = none := by
  induction m with
  | nil => simp [mapGet]
  | cons kv rest ih =>
    rw [mapGet_cons] at h
    by_cases hk : kv.1 = k
    · rw [if_pos hk] at h; exact absurd h (by simp)
    · rw [if_neg hk] at h
      rw [List.filter_cons]
      split
      · rw [mapGet_cons, if_neg hk]; exact ih h
      · exact ih h

theorem mapGet_eq_none_of_not_mem (m : List (String × RLEntry)) (k : String)
    (h : k ∉ m.map Prod.fst) : mapGet m k = none := by
  induction m with
  | nil => simp [mapGet]
  | cons kv rest ih =>
    simp only [List.map_cons, List.mem_cons, not_or] at h
    rw [mapGet_cons, if_neg (fun hk => h.1 hk.symm)]
    exact ih h.2

theorem mapGet_filter_of_nodup (m : List (String × RLEntry)) (k : String)
    (q : RLEntry → Bool) (hwf : keysNodup m) :
    mapGet (m.filter (fun kv => q kv.2)) k =
      match mapGet m k with
      | some e => if q e then some e else none
      | none => none := by
  induction m with
  | nil => simp [mapGet]
  | cons kv rest ih =>
    have hwf2 : (kv.1 :: rest.map Prod.fst).Nodup := hwf
    have hparts := List.nodup_cons.mp hwf2
    have hwf' : keysNodup rest := hparts.2
    have hnotin : kv.1 ∉ rest.map Prod.fst := hparts.1
    rw [List.filter_cons]
    by_cases hk : kv.1 = k
    · subst hk
      split
      · rename_i hq
        rw [mapGet_cons, if_pos rfl, mapGet_cons, if_pos rfl]
        have hq2 : q kv.2 = true := hq
        simp [hq2]
      · rename_i hq
        rw [mapGet_filter_none rest kv.1 q
          (mapGet_eq_none_of_not_mem rest kv.1 hnotin)]
        rw [mapGet_cons, if_pos rfl]
        have hq2 : ¬q kv.2 = true := hq
        simp [hq2]
    · split
      · rw [mapGet_cons, if_neg hk, mapGet_cons, if_neg hk, ih hwf']
      · rw [ih hwf', mapGet_cons, if_neg hk]

theorem keysNodup_filter (m : List (String × RLEntry))
    (p : String × RLEntry → Bool) (hwf : keysNodup m) :
    keysNodup (m.filter p) :=
  List.Nodup.sublist (List.Sublist.map Prod.fst (List.filter_sublist m)) hwf

theorem keys_map_replace (m : List (String × RLEntry)) (k : String)
    (v : RLEntry) :
    (m.map (fun kv => if kv.1 = k then (k, v) else kv)).map Prod.fst =
      m.map Prod.fst := by
  induction m with
  | nil => rfl
  | cons kv rest ih =>
    simp only [List.map_cons]
    by_cases hk : kv.1 = k
    · rw [if_pos hk, ih, hk]
    · rw [if_neg hk, ih]

theorem keysNodup_mapSet (m : List (String × RLEntry)) (k : String)
    (v : RLEntry) (hwf : keysNodup m) : keysNodup (mapSet m k v) := by
  unfold mapSet
  split
  · unfold keysNodup
    rw [keys_map_replace]
    exact hwf
  · rename_i h
    unfold keysNodup
    rw [List.map_append]
    refine List.Nodup.append hwf (by simp) ?_
    intro a ha hb
    simp only [List.map_cons, List.map_nil, List.mem_singleton] at hb
    subst hb
    obtain ⟨kv, hkv, hfst⟩ := List.mem_map.mp ha
    exact h (by rw [List.any_eq_true]; exact ⟨kv, hkv, by simp [hfst]⟩)

/-! ### Step characterization of `checkRateLimit` -/

/-- The result of one admission check, as a function of the live entry
for the key (proof-layer abstraction of the three branches). -/
def stepResult (now : Nat) : Option RLEntry → RLResult
  | none => ⟨true, MAX_REQUESTS_PER_WINDOW - 1, now + RATE_LIMIT_WINDOW_MS⟩
  | some e =>
    if MAX_REQUESTS_PER_WINDOW ≤ e.count then ⟨false, 0, e.resetAt⟩
    else ⟨true, MAX_REQUESTS_PER_WINDOW - (e.count + 1), e.resetAt⟩

/-- The entry stored for the key after one admission check, as a function
of the key's live entry. -/
def stepEntry (now : Nat) : Option RLEntry → RLEntry
  | none => ⟨1, now + RATE_LIMIT_WINDOW_MS⟩
  | some e =>
    if MAX_REQUESTS_PER_WINDOW ≤ e.count then e else ⟨e.count + 1, e.resetAt⟩

theorem outcomesFor_nil (key : String) (s : RLState) :
    outcomesFor key [] s = [] := rfl

theorem outcomesFor_cons (key k : String) (t : Nat)
    (rest : List (String × Nat)) (s : RLState) :
    outcomesFor key ((k, t) :: rest) s =
      if k = key then
        (checkRateLimit k t s).1.allowed ::
          outcomesFor key rest (checkRateLimit k t s).2
      else outcomesFor key rest (checkRateLimit k t s).2 := rfl

theorem checkRateLimitCore_spec (k : String) (now : Nat) (s1 : RLState) :
    (checkRateLimitCore k now s1).1 =
      stepResult now (effEntry now (mapGet s1.map k)) ∧
    mapGet (checkRateLimitCore k now s1).2.map k =
      some (stepEntry now (effEntry now (mapGet s1.map k))) := by
  unfold checkRateLimitCore
  cases hm : mapGet s1.map k with
  | none =>
    constructor
    · simp [effEntry, stepResult]
    · simp [effEntry, stepEntry, mapGet_mapSet_self]
  | some e =>
    by_cases hexp : e.resetAt < now
    · constructor
      · simp [hexp, effEntry, stepResult]
      · simp [hexp, effEntry, stepEntry, mapGet_mapSet_self]
    · by_cases hfull : MAX_REQUESTS_PER_WINDOW ≤ e.count
      · constructor
        · simp [hexp, hfull, effEntry, stepResult]
        · simp [hexp, hfull, effEntry, stepEntry, hm]
      · constructor
        · simp [hexp, hfull, effEntry, stepResult]
        · simp [hexp, hfull, effEntry, stepEntry, mapGet_mapSet_self]

/-- The sweep never changes what a later admission check can observe
about any key: deleted entries were already expired. -/
theorem cleanup_effEntry (now : Nat) (s : RLState) (k : String)
    (hwf : keysNodup s.map) (t : Nat) (ht : now ≤ t) :
    effEntry t (mapGet (cleanupRateLimitMap now s).map k) =
      effEntry t (mapGet s.map k) := by
  unfold cleanupRateLimitMap
  split
  · rfl
  · rw [mapGet_filter_of_nodup s.map k (fun x => !decide (x.resetAt < now)) hwf]
    cases hm : mapGet s.map k with
    | none => rfl
    | some e =>
      by_cases hexp : e.resetAt < now
      · have hexpt : e.resetAt < t := Nat.lt_of_lt_of_le hexp ht
        simp [hexp, effEntry, hexpt]
      · simp [hexp, effEntry]

theorem cleanup_wf (now : Nat) (s : RLState) (hwf : keysNodup s.map) :
    keysNodup (cleanupRateLimitMap now s).map := by
  unfold cleanupRateLimitMap
  split
  · exact hwf
  · exact keysNodup_filter _ _ hwf

/-- One admission check, characterized by the key's live entry before
the call. -/
theorem checkRateLimit_spec (k : String) (now : Nat) (s : RLState)
    (hwf : keysNodup s.map) :
    (checkRateLimit k now s).1 =
      stepResult now (effEntry now (mapGet s.map k)) ∧
    mapGet (checkRateLimit k now s).2.map k =
      some (stepEntry now (effEntry now (mapGet s.map k))) := by
  have h := checkRateLimitCore_spec k now (cleanupRateLimitMap now s)
  rw [cleanup_effEntry now s k hwf now le_rfl] at h
  exact h

/-- An admission check for key `k` leaves every other key's observable
entry unchanged, at the call time and at any later time. -/
theorem checkRateLimit_other (k j : String) (now : Nat) (s : RLState)
    (hwf : keysNodup s.map) (hne : j ≠ k) (t : Nat) (ht : now ≤ t) :
    effEntry t (mapGet (checkRateLimit k now s).2.map j) =
      effEntry t (mapGet s.map j) := by
  have hcl := cleanup_effEntry now s j hwf t ht
  unfold checkRateLimit checkRateLimitCore
  cases hm : mapGet (cleanupRateLimitMap now s).map k with
  | none =>
    simpa [mapGet_mapSet_other _ k j _ hne] using hcl
  | some e =>
    by_cases hexp : e.resetAt < now
    · simpa [hexp, mapGet_mapSet_other _ k j _ hne] using hcl
    · by_cases hfull : MAX_REQUESTS_PER_WINDOW ≤ e.count
      · simpa [hexp, hfull] using hcl
      · simpa [hexp, hfull, mapGet_mapSet_other _ k j _ hne] using hcl

theorem checkRateLimit_wf (k : String) (now : Nat) (s : RLState)
    (hwf : keysNodup s.map) : keysNodup (checkRateLimit k now s).2.map := by
  have hwf1 := cleanup_wf now s hwf
  unfold checkRateLimit checkRateLimitCore
  cases hm : mapGet (cleanupRateLimitMap now s).map k with
  | none => simpa using keysNodup_mapSet _ _ _ hwf1
  | some e =>
    by_cases hexp : e.resetAt < now
    · simpa [hexp] using keysNodup_mapSet _ k ⟨1, now + RATE_LIMIT_WINDOW_MS⟩ hwf1
    · by_cases hfull : MAX_REQUESTS_PER_WINDOW ≤ e.count
      · simpa [hexp, hfull] using hwf1
      · simpa [hexp, hfull] using
          keysNodup_mapSet _ k ⟨e.count + 1, e.resetAt⟩ hwf1

/-! ### Claim theorems for the rate limiter -/

/-- C1.  A key whose live (unexpired) entry has reached the ceiling of
`MAX_REQUESTS_PER_WINDOW = 10` is rejected with `remaining = 0`, and its
entry (count and resetAt) is left unchanged; in particular 11 calls on a
fresh key within one window give ten admissions followed by a
rejection. -/
theorem checkRateLimit_rejects_at_ceiling (k : String) (now : Nat)
    (s : RLState) (e : RLEntry) (hwf : keysNodup s.map)
    (hget : mapGet s.map k = some e) (hlive : ¬e.resetAt < now)
    (hfull : MAX_REQUESTS_PER_WINDOW ≤ e.count) :
    (checkRateLimit k now s).1 = ⟨false, 0, e.resetAt⟩ ∧
      mapGet (checkRateLimit k now s).2.map k = some e ∧
      outcomesFor "1.2.3.4" (List.replicate 11 ("1.2.3.4", 0)) ⟨0, []⟩ =
        List.replicate 10 true ++ [false] := by
  have hs := checkRateLimit_spec k now s hwf
  have he : effEntry now (mapGet s.map k) = some e := by
    rw [hget]; simp [effEntry, hlive]
  refine ⟨?_, ?_, by decide⟩
  · rw [hs.1, he]; simp [stepResult, hfull]
  · rw [hs.2, he]; simp [stepEntry, hfull]

theorem checkRateLimit_rejects_at_ceiling_witness :
    (checkRateLimit "1.2.3.4" 50 ⟨0, [("1.2.3.4", ⟨10, 60000⟩)]⟩).1 =
      ⟨false, 0, 60000⟩ :=
  (checkRateLimit_rejects_at_ceiling "1.2.3.4" 50
    ⟨0, [("1.2.3.4", ⟨10, 60000⟩)]⟩ ⟨10, 60000⟩
    (by decide) (by decide) (by decide) (by decide)).1

/-- C2.  When no entry exists for the key, or its entry has expired
(`now > resetAt`), the call replaces the entry by `{count := 1, resetAt
:= now + window}` and admits with `remaining = ceiling - 1`, regardless
of the prior count.  (`effEntry now … = none` states exactly "absent or
expired".) -/
theorem checkRateLimit_fresh_window (k : String) (now : Nat) (s : RLState)
    (hwf : keysNodup s.map) (heff : effEntry now (mapGet s.map k) = none) :
    (checkRateLimit k now s).1 =
      ⟨true, MAX_REQUESTS_PER_WINDOW - 1, now + RATE_LIMIT_WINDOW_MS⟩ ∧
      mapGet (checkRateLimit k now s).2.map k =
        some ⟨1, now + RATE_LIMIT_WINDOW_MS⟩ := by
  have hs := checkRateLimit_spec k now s hwf
  constructor
  · rw [hs.1, heff]; rfl
  · rw [hs.2, heff]; rfl

theorem checkRateLimit_fresh_window_witness :
    (checkRateLimit "1.2.3.4" 60001 ⟨0, [("1.2.3.4", ⟨10, 60000⟩)]⟩).1 =
      ⟨true, MAX_REQUESTS_PER_WINDOW - 1, 60001 + RATE_LIMIT_WINDOW_MS⟩ :=
  (checkRateLimit_fresh_window "1.2.3.4" 60001
    ⟨0, [("1.2.3.4", ⟨10, 60000⟩)]⟩ (by decide) (by decide)).1

/-- C10.  The expiry sweep is idempotent: an immediate second run at the
same time removes nothing further (it leaves the state unchanged). -/
theorem cleanupRateLimitMap_idempotent (now : Nat) (s : RLState) :
    cleanupRateLimitMap now (cleanupRateLimitMap now s) =
      cleanupRateLimitMap now s := by
  by_cases h : now - s.lastCleanup < 5 * 60 * 1000
  · have h1 : cleanupRateLimitMap now s = s := by
      unfold cleanupRateLimitMap; rw [if_pos h]
    rw [h1, h1]
  · have h1 : cleanupRateLimitMap now s =
        ⟨now, s.map.filter (fun kv => !decide (kv.2.resetAt < now))⟩ := by
      unfold cleanupRateLimitMap; rw [if_neg h]
    rw [h1]
    unfold cleanupRateLimitMap
    rw [if_pos]
    simp

/-- Erasing every call of key `A` from a monotone-time trace does not
change the outcomes observed for key `B ≠ A` (induction core for C7). -/
theorem outcomesFor_erase_aux (A B : String) (hAB : A ≠ B) :
    ∀ (calls : List (String × Nat)) (t0 : Nat) (s1 s2 : RLState),
      keysNodup s1.map → keysNodup s2.map →
      List.Pairwise (fun c d => c.2 ≤ d.2) calls →
      (∀ c ∈ calls, t0 ≤ c.2) →
      (∀ t, t0 ≤ t →
        effEntry t (mapGet s1.map B) = effEntry t (mapGet s2.map B)) →
      outcomesFor B calls s1 =
        outcomesFor B (calls.filter (fun c => decide (c.1 ≠ A))) s2 := by
  intro calls
  induction calls with
  | nil => intro t0 s1 s2 _ _ _ _ _; rfl
  | cons c rest ih =>
    intro t0 s1 s2 hwf1 hwf2 hpw hbd hR
    obtain ⟨k, t⟩ := c
    have hpw' := List.pairwise_cons.mp hpw
    have hhead : ∀ d ∈ rest, t ≤ d.2 := hpw'.1
    have hrest := hpw'.2
    have ht0 : t0 ≤ t := hbd (k, t) (List.mem_cons_self _ _)
    by_cases hkB : k = B
    · subst hkB
      have hne : ¬k = A := fun h => hAB h.symm
      rw [List.filter_cons, if_pos (by simpa using hne)]
      rw [outcomesFor_cons, outcomesFor_cons, if_pos rfl, if_pos rfl]
      have e1 := (checkRateLimit_spec k t s1 hwf1).1
      have e2 := (checkRateLimit_spec k t s2 hwf2).1
      have g1 := (checkRateLimit_spec k t s1 hwf1).2
      have g2 := (checkRateLimit_spec k t s2 hwf2).2
      have hRt := hR t ht0
      congr 1
      · rw [e1, e2, hRt]
      · refine ih t _ _ (checkRateLimit_wf k t s1 hwf1)
          (checkRateLimit_wf k t s2 hwf2) hrest hhead ?_
        intro u _
        rw [g1, g2, hRt]
    · have hBk : B ≠ k := fun h => hkB h.symm
      by_cases hkA : k = A
      · subst hkA
        rw [List.filter_cons, if_neg (by simp)]
        rw [outcomesFor_cons, if_neg hkB]
        refine ih t _ s2 (checkRateLimit_wf k t s1 hwf1) hwf2 hrest hhead ?_
        intro u hu
        rw [checkRateLimit_other k B t s1 hwf1 hBk u hu]
        exact hR u (le_trans ht0 hu)
      · rw [List.filter_cons, if_pos (by simpa using hkA)]
        rw [outcomesFor_cons, outcomesFor_cons, if_neg hkB, if_neg hkB]
        refine ih t _ _ (checkRateLimit_wf k t s1 hwf1)
          (checkRateLimit_wf k t s2 hwf2) hrest hhead ?_
        intro u hu
        rw [checkRateLimit_other k B t s1 hwf1 hBk u hu,
          checkRateLimit_other k B t s2 hwf2 hBk u hu]
        exact hR u (le_trans ht0 hu)

/-- C7.  Key isolation: over any monotone-time call trace from a
well-formed table, the outcome sequence observed for key `B` is the same
whether or not the calls for a different key `A` are interleaved — the
`A` calls can at most sweep `B`'s already-expired entry, which does not
change `B`'s outcomes. -/
theorem rateLimiter_key_isolation (A B : String) (hAB : A ≠ B)
    (calls : List (String × Nat)) (s : RLState) (hwf : keysNodup s.map)
    (hmono : List.Pairwise (fun c d => c.2 ≤ d.2) calls) :
    outcomesFor B calls s =
      outcomesFor B (calls.filter (fun c => decide (c.1 ≠ A))) s :=
  outcomesFor_erase_aux A B hAB calls 0 s s hwf hwf hmono
    (fun _ _ => Nat.zero_le _) (fun _ _ => rfl)

theorem rateLimiter_key_isolation_witness :
    outcomesFor "b" [("a", 0), ("b", 1), ("a", 2), ("b", 3)] ⟨0, []⟩ =
      outcomesFor "b"
        ([("a", 0), ("b", 1), ("a", 2), ("b", 3)].filter
          (fun c => decide (c.1 ≠ "a"))) ⟨0, []⟩ :=
  rateLimiter_key_isolation "a" "b" (by decide) _ _ (by decide) (by decide)

/-! ## The `POST` handler of `src/app/api/chat/route.ts` -/

/-- The parts of the inbound request the handler could read: the two
client-address headers and the JSON body. -/
structure ChatRequest where
  xForwardedFor : Option String
  xRealIp : Option String
  bodyJson : String
deriving DecidableEq, Repr

/-- The observable shape of a handler response (status, the headers the
handler sets that matter here, and the JSON error message if any). -/
structure ChatHttpResponse where
  status : Nat
  contentType : String
  retryAfter : Option String
  errorMessage : Option String
deriving DecidableEq, Repr

/-- The unconditional maintenance response returned at the top of
`POST`: HTTP 503, JSON body, `Retry-After: 3600`. -/
def maintenanceResponse : ChatHttpResponse :=
  { status := 503
    contentType := "application/json"
    retryAfter := some "3600"
    errorMessage := some
      "Service temporarily unavailable. We are experiencing very high demand and have paused the chat to manage costs. Please check back later." }

/-- Client-IP derivation of the (dead) rate-limit path:
`x-forwarded-for` first entry trimmed, else `x-real-ip`, else
`"unknown"`. -/
def clientIp (req : ChatRequest) : String :=
  match req.xForwardedFor with
  | some f => ((f.splitOn ",").headD "").trim
  | none =>
    match req.xRealIp with
    | some r => r
    | none => "unknown"

/-- The code that follows the unconditional `return` in `POST` (the
rate-limit check, the 429 response and the streaming path), embedded
for reference: JS `return` semantics make it unreachable.  The stream
response is abbreviated to its status line. -/
def POST_unreachableTail (req : ChatRequest) (now : Nat) (s : RLState) :
    ChatHttpResponse × RLState :=
  let ip := clientIp req
  let r := checkRateLimit ip now s
  if !r.1.allowed then
    ({ status := 429
       contentType := "application/json"
       retryAfter := some (toString ((r.1.resetAt - now + 999) / 1000))
       errorMessage := some
         "Rate limit exceeded. Please wait a moment before sending another message." },
     r.2)
  else
    ({ status := 200, contentType := "text/event-stream"
       retryAfter := none, errorMessage := none }, r.2)

/-- `POST`: the function body opens with an unconditional
`return new Response(...503...)`, so by JS `return` semantics the call
ends there — the body is never read and the limiter state is never
touched. -/
def POST (req : ChatRequest) (now : Nat) (s : RLState) :
    ChatHttpResponse × RLState :=
  (maintenanceResponse, s)

/-- C8.  Every `POST` request gets the 503 maintenance response with
`Retry-After: 3600`, independently of headers, body, time and limiter
state; the limiter state is untouched (the rate limiter is never
consulted and the body never read), and neither the 429 nor the
streaming (200) response is ever produced. -/
theorem POST_always_maintenance (req : ChatRequest) (now : Nat)
    (s : RLState) :
    POST req now s = (maintenanceResponse, s) ∧
      (POST req now s).1.status = 503 ∧
      (POST req now s).1.retryAfter = some "3600" ∧
      (POST req now s).1.status ≠ 429 ∧
      (POST req now s).1.status ≠ 200 := by
  refine ⟨rfl, rfl, rfl, ?_, ?_⟩ <;> simp [POST, maintenanceResponse]

/-! ## Tool proxy layer (`src/lib/nia-tools.ts`)

Shared request/response model.  A tool execution is
`...Plan` (schema validation, source resolution, request construction;
`Except.error` = thrown before any HTTP request) followed by
`...Respond` (the single upstream response mapped to payload or thrown
error). -/

/-- The upstream endpoints, with their resolved identifiers
(`encodeURIComponent` is injective on identifiers and elided). -/
inductive Endpoint where
  | query
  | searchQuery
  | dataSourceTree (id : String)
  | dataSourceLs (id : String) (path : String)
  | dataSourceRead (id : String) (path : String)
  | dataSourceGrep (id : String)
  | repoTree (id : String)
  | repoContent (id : String) (path : String)
  | repoGrep (id : String)
  | webSearchPath
  | searchWebPath
  | sourcesContent
deriving DecidableEq, Repr

/-- One outbound HTTP request: endpoint and (for POSTs) JSON body. -/
structure NiaRequest where
  endpoint : Endpoint
  body : Option (List (String × JVal))
deriving Repr

/-- The source identifier a request addresses, when it has one. -/
def endpointSource : Endpoint → Option String
  | .dataSourceTree id => some id
  | .dataSourceLs id _ => some id
  | .dataSourceRead id _ => some id
  | .dataSourceGrep id => some id
  | .repoTree id => some id
  | .repoContent id _ => some id
  | .repoGrep id => some id
  | _ => none

def exceptOk {α : Type} : Except String α → Bool
  | .ok _ => true
  | .error _ => false

/-- The source identifier a plan resolved, `none` when the plan threw. -/
def planSource (e : Except String NiaRequest) : Option String :=
  match e with
  | .ok r => endpointSource r.endpoint
  | .error _ => none

/-- Whether the planned request's serialized body contains a key. -/
def planBodyHasKey (e : Except String NiaRequest) (k : String) : Bool :=
  match e with
  | .ok r =>
    match r.body with
    | some b => assocHasKey b k
    | none => false
  | .error _ => false

/-- One upstream HTTP response: `response.ok`, the body text read on the
error path, and the parsed JSON read on the success path. -/
structure UpstreamResponse where
  ok : Bool
  bodyText : String
  json : JVal

/-- zod `z.number().min(lo).max(hi)` rejects a present value outside
`[lo, hi]` (validation, not clamping). -/
def zOutOfRange (lo hi : Int) : Option Int → Bool
  | none => false
  | some v => decide (v < lo ∨ hi < v)

/-- The out-of-bounds test for the five grep caps shared by every
grep-style schema: contextLines 0–10, linesAfter/linesBefore 0–20,
maxMatchesPerFile 1–100, maxTotalMatches 1–1000. -/
def capsOutOfRange (contextLines linesAfter linesBefore
    maxMatchesPerFile maxTotalMatches : Option Int) : Bool :=
  zOutOfRange 0 10 contextLines || zOutOfRange 0 20 linesAfter ||
  zOutOfRange 0 20 linesBefore || zOutOfRange 1 100 maxMatchesPerFile ||
  zOutOfRange 1 1000 maxTotalMatches

/-- The `outputMode` enum. -/
inductive OutputMode where
  | content
  | filesWithMatches
  | count
deriving DecidableEq, Repr

def OutputMode.wire : OutputMode → String
  | .content => "content"
  | .filesWithMatches => "files_with_matches"
  | .count => "count"

/-- A possibly-`undefined` number assigned into an object literal. -/
def jnumOpt : Option Int → JVal
  | none => .jsUndefined
  | some n => .num n

/-- `if (x !== undefined) body.k = x` for a number field. -/
def optNumField (k : String) : Option Int → List (String × JVal)
  | none => []
  | some n => [(k, .num n)]

/-- JS `r.split('/').pop()`. -/
def lastSegment (r : String) : String := (r.splitOn "/").getLastD ""

/-- JS `arr.join(', ')`. -/
def joinComma (l : List String) : String := String.intercalate ", " l

namespace Chromium

/-- `getDefaultDocSourceId()` over the configured
`CHROMIUM_DOCS_SOURCES` list. -/
def getDefaultDocSourceId (docs : List String) : Except String String :=
  match docs with
  | [] => .error "CHROMIUM_DOCS_SOURCES not configured"
  | d :: _ => .ok d

/-- `sourceId || getDefaultDocSourceId()` — the empty string is falsy
and also falls back to the default. -/
def resolveDocSourceId (sourceId : Option String) (docs : List String) :
    Except String String :=
  match sourceId with
  | some s => if s = "" then getDefaultDocSourceId docs else .ok s
  | none => getDefaultDocSourceId docs

/-- `browseChromiumDocs`: GET `/data-sources/{id}/tree`. -/
def browseChromiumDocsPlan (docs : List String) (sourceId : Option String) :
    Except String NiaRequest := do
  let id ← resolveDocSourceId sourceId docs
  pure ⟨.dataSourceTree id, none⟩

/-- `listChromiumDocsDirectory`: GET `/data-sources/{id}/ls?path=`;
the `path` schema default is `"/"`. -/
def listChromiumDocsDirectoryPlan (docs : List String)
    (path : Option String) (sourceId : Option String) :
    Except String NiaRequest := do
  let id ← resolveDocSourceId sourceId docs
  pure ⟨.dataSourceLs id (path.getD "/"), none⟩

/-- `readChromiumDoc`: GET `/data-sources/{id}/read?path=`. -/
def readChromiumDocPlan (docs : List String) (path : String)
    (sourceId : Option String) : Except String NiaRequest := do
  let id ← resolveDocSourceId sourceId docs
  pure ⟨.dataSourceRead id path, none⟩

/-- The `grepChromiumDocs` input schema (absent = `undefined`). -/
structure RawGrepDocs where
  pattern : String
  path : Option String
  sourceId : Option String
  contextLines : Option Int
  linesAfter : Option Int
  linesBefore : Option Int
  caseSensitive : Option Bool
  wholeWord : Option Bool
  fixedString : Option Bool
  maxMatchesPerFile : Option Int
  maxTotalMatches : Option Int
  outputMode : Option OutputMode
  highlight : Option Bool
deriving Repr

/-- `grepChromiumDocs` arguments after zod validation (defaults
applied). -/
structure GrepDocsArgs where
  pattern : String
  path : String
  sourceId : Option String
  contextLines : Option Int
  linesAfter : Option Int
  linesBefore : Option Int
  caseSensitive : Bool
  wholeWord : Bool
  fixedString : Bool
  maxMatchesPerFile : Int
  maxTotalMatches : Int
  outputMode : OutputMode
  highlight : Bool
deriving Repr

/-- zod validation of the `grepChromiumDocs` schema: bounds checked on
present values, defaults substituted for absent ones. -/
def validateGrepDocs (r : RawGrepDocs) : Except String GrepDocsArgs :=
  if zOutOfRange 0 10 r.contextLines then
    .error "Invalid contextLines: number out of range"
  else if zOutOfRange 0 20 r.linesAfter then
    .error "Invalid linesAfter: number out of range"
  else if zOutOfRange 0 20 r.linesBefore then
    .error "Invalid linesBefore: number out of range"
  else if zOutOfRange 1 100 r.maxMatchesPerFile then
    .error "Invalid maxMatchesPerFile: number out of range"
  else if zOutOfRange 1 1000 r.maxTotalMatches then
    .error "Invalid maxTotalMatches: number out of range"
  else
    .ok ⟨r.pattern, r.path.getD "/", r.sourceId, r.contextLines,
      r.linesAfter, r.linesBefore, r.caseSensitive.getD false,
      r.wholeWord.getD false, r.fixedString.getD false,
      r.maxMatchesPerFile.getD 10, r.maxTotalMatches.getD 100,
      r.outputMode.getD .content, r.highlight.getD false⟩

/-- The `grepChromiumDocs` request body.  After validation the boolean
and cap fields are always defined, so their `!== undefined` guards are
vacuously true; `path` is sent only when neither empty nor `"/"`. -/
def buildGrepDocsBody (a : GrepDocsArgs) : List (String × JVal) :=
  [("pattern", .str a.pattern),
   ("context_lines", .num (a.contextLines.getD 3))]
  ++ (if a.path ≠ "" ∧ a.path ≠ "/" then [("path", .str a.path)] else [])
  ++ optNumField "A" a.linesAfter
  ++ optNumField "B" a.linesBefore
  ++ [("case_sensitive", .bool a.caseSensitive),
      ("whole_word", .bool a.wholeWord),
      ("fixed_string", .bool a.fixedString),
      ("max_matches_per_file", .num a.maxMatchesPerFile),
      ("max_total_matches", .num a.maxTotalMatches),
      ("output_mode", .str a.outputMode.wire),
      ("highlight", .bool a.highlight)]

/-- `grepChromiumDocs`: POST `/data-sources/{id}/grep`. -/
def grepChromiumDocsPlan (docs : List String) (r : RawGrepDocs) :
    Except String NiaRequest := do
  let a ← validateGrepDocs r
  let id ← resolveDocSourceId a.sourceId docs
  pure ⟨.dataSourceGrep id, some (buildGrepDocsBody a)⟩

/-- `` `chromium/chromium/tree/main/${s}` ``. -/
def mapSubtree (s : String) : String := "chromium/chromium/tree/main/" ++ s

def availableSubtrees (repos : List String) : String :=
  joinComma (repos.map lastSegment)

/-- The `searchChromium` invalid-subtree error message. -/
def invalidSubtreesMsg (invalid repos : List String) : String :=
  "Invalid subtrees: " ++ joinComma (invalid.map lastSegment) ++
    ". Available: " ++ availableSubtrees repos

/-- The `grepChromiumCode` unknown-subtree error message (the source
wraps the name in single-quote characters, elided here). -/
def subtreeNotFoundMsg (subtree : String) (repos : List String) : String :=
  "Subtree " ++ subtree ++ " not found. Available: " ++
    availableSubtrees repos

/-- The `searchChromium` request body. -/
def searchChromiumBody (query : String) (docs repos : List String) :
    List (String × JVal) :=
  [("messages", .arr [.obj [("role", .str "user"), ("content", .str query)]]),
   ("search_mode", .str
     (if !docs.isEmpty && !repos.isEmpty then "unified"
      else if !repos.isEmpty then "repositories" else "sources")),
   ("include_sources", .bool true)]
  ++ (if !docs.isEmpty then [("data_sources", .arr (docs.map JVal.str))]
      else [])
  ++ (if !repos.isEmpty then [("repositories", .arr (repos.map JVal.str))]
      else [])

/-- `searchChromium`: map each subtree name to its composite repository
identifier, reject unknown ones before the request, then POST
`/query`.  (`subtrees && subtrees.length > 0` selects the validated
branch; otherwise all configured repositories are searched.) -/
def searchChromiumPlan (allDocs allRepos : List String) (query : String)
    (subtrees : Option (List String)) (includeDocs : Option Bool) :
    Except String NiaRequest := do
  let inc := includeDocs.getD true
  let selectedRepos ←
    match subtrees with
    | some l =>
      if l.isEmpty then pure allRepos
      else
        let mapped := l.map mapSubtree
        let invalid := mapped.filter (fun rp => decide (rp ∉ allRepos))
        if invalid.isEmpty then pure mapped
        else Except.error (invalidSubtreesMsg invalid allRepos)
    | none => pure allRepos
  let selectedDocs := if inc then allDocs else []
  pure ⟨.query, some (searchChromiumBody query selectedDocs selectedRepos)⟩

/-- The `grepChromiumCode` input schema. -/
structure RawGrepCode where
  pattern : String
  subtree : Option String
  path : Option String
  contextLines : Option Int
  linesAfter : Option Int
  linesBefore : Option Int
  caseSensitive : Option Bool
  wholeWord : Option Bool
  fixedString : Option Bool
  maxMatchesPerFile : Option Int
  maxTotalMatches : Option Int
  outputMode : Option OutputMode
  highlight : Option Bool
  includeLineNumbers : Option Bool
  groupByFile : Option Bool
  exhaustive : Option Bool
deriving Repr

/-- `grepChromiumCode` arguments after zod validation. -/
structure GrepCodeArgs where
  pattern : String
  subtree : Option String
  path : String
  contextLines : Option Int
  linesAfter : Option Int
  linesBefore : Option Int
  caseSensitive : Bool
  wholeWord : Bool
  fixedString : Bool
  maxMatchesPerFile : Int
  maxTotalMatches : Int
  outputMode : OutputMode
  highlight : Bool
  includeLineNumbers : Bool
  groupByFile : Bool
  exhaustive : Bool
deriving Repr

def validateGrepCode (r : RawGrepCode) : Except String GrepCodeArgs :=
  if zOutOfRange 0 10 r.contextLines then
    .error "Invalid contextLines: number out of range"
  else if zOutOfRange 0 20 r.linesAfter then
    .error "Invalid linesAfter: number out of range"
  else if zOutOfRange 0 20 r.linesBefore then
    .error "Invalid linesBefore: number out of range"
  else if zOutOfRange 1 100 r.maxMatchesPerFile then
    .error "Invalid maxMatchesPerFile: number out of range"
  else if zOutOfRange 1 1000 r.maxTotalMatches then
    .error "Invalid maxTotalMatches: number out of range"
  else
    .ok ⟨r.pattern, r.subtree, r.path.getD "", r.contextLines,
      r.linesAfter, r.linesBefore, r.caseSensitive.getD false,
      r.wholeWord.getD false, r.fixedString.getD false,
      r.maxMatchesPerFile.getD 10, r.maxTotalMatches.getD 100,
      r.outputMode.getD .content, r.highlight.getD false,
      r.includeLineNumbers.getD true, r.groupByFile.getD true,
      r.exhaustive.getD true⟩

/-- `subtree || "base"`: the empty string is falsy too. -/
def resolvedSubtreeOf (subtree : Option String) : String :=
  match subtree with
  | some s => if s = "" then "base" else s
  | none => "base"

/-- The `grepChromiumCode` request body (same fields as the archive
grep, plus line numbers, grouping and exhaustive flags). -/
def buildGrepCodeBody (a : GrepCodeArgs) : List (String × JVal) :=
  [("pattern", .str a.pattern),
   ("context_lines", .num (a.contextLines.getD 3))]
  ++ (if a.path ≠ "" then [("path", .str a.path)] else [])
  ++ optNumField "A" a.linesAfter
  ++ optNumField "B" a.linesBefore
  ++ [("case_sensitive", .bool a.caseSensitive),
      ("whole_word", .bool a.wholeWord),
      ("fixed_string", .bool a.fixedString),
      ("max_matches_per_file", .num a.maxMatchesPerFile),
      ("max_total_matches", .num a.maxTotalMatches),
      ("output_mode", .str a.outputMode.wire),
      ("highlight", .bool a.highlight),
      ("include_line_numbers", .bool a.includeLineNumbers),
      ("group_by_file", .bool a.groupByFile),
      ("exhaustive", .bool a.exhaustive)]

/-- `grepChromiumCode`: resolve the subtree (default `"base"`), check it
against the configured repositories only when that list is non-empty,
then POST `/repositories/{repoId}/grep`. -/
def grepChromiumCodePlan (repos : List String) (r : RawGrepCode) :
    Except String NiaRequest := do
  let a ← validateGrepCode r
  let resolvedSubtree := resolvedSubtreeOf a.subtree
  let repoId := mapSubtree resolvedSubtree
  if repos.length > 0 ∧ repoId ∉ repos then
    .error (subtreeNotFoundMsg resolvedSubtree repos)
  else
    pure ⟨.repoGrep repoId, some (buildGrepCodeBody a)⟩

/-- A `RawGrepDocs` with only the required `pattern` supplied. -/
def rawGrepDocsMin (pat : String) : RawGrepDocs :=
  ⟨pat, none, none, none, none, none, none, none, none, none, none,
    none, none⟩

/-- A `RawGrepCode` with only the required `pattern` supplied. -/
def rawGrepCodeMin (pat : String) : RawGrepCode :=
  ⟨pat, none, none, none, none, none, none, none, none, none, none,
    none, none, none, none, none⟩

/-- `searchChromium` returns the upstream JSON unchanged on success. -/
def searchChromiumRespond (resp : UpstreamResponse) : Except String JVal :=
  if resp.ok then .ok resp.json
  else .error ("Nia API error: " ++ resp.bodyText)

def browseChromiumDocsRespond (sourceId : String) (resp : UpstreamResponse) :
    Except String JVal :=
  if resp.ok then
    .ok (.obj [("tree", resp.json.getField "tree_string"),
               ("pageCount", resp.json.getField "page_count"),
               ("baseUrl", resp.json.getField "base_url"),
               ("sourceId", .str sourceId)])
  else .error ("Nia API error: " ++ resp.bodyText)

def listChromiumDocsDirectoryRespond (sourceId : String)
    (resp : UpstreamResponse) : Except String JVal :=
  if resp.ok then
    .ok (.obj [("path", resp.json.getField "path"),
               ("directories", resp.json.getField "directories"),
               ("files", resp.json.getField "files"),
               ("total", resp.json.getField "total"),
               ("sourceId", .str sourceId)])
  else .error ("Nia API error: " ++ resp.bodyText)

def readChromiumDocRespond (sourceId : String) (resp : UpstreamResponse) :
    Except String JVal :=
  if resp.ok then
    .ok (.obj [("path", resp.json.getField "path"),
               ("url", resp.json.getField "url"),
               ("content", resp.json.getField "content"),
               ("sourceId", .str sourceId)])
  else .error ("Nia API error: " ++ resp.bodyText)

def grepChromiumDocsRespond (sourceId : String) (resp : UpstreamResponse) :
    Except String JVal :=
  if resp.ok then
    .ok (.obj [("matches", resp.json.getField "matches"),
               ("files", resp.json.getField "files"),
               ("counts", resp.json.getField "counts"),
               ("pattern", resp.json.getField "pattern"),
               ("pathFilter", resp.json.getField "path_filter"),
               ("totalMatches", resp.json.getField "total_matches"),
               ("filesSearched", resp.json.getField "files_searched"),
               ("sourceId", .str sourceId)])
  else .error ("Nia API error: " ++ resp.bodyText)

def grepChromiumCodeRespond (subtree repoId : String)
    (resp : UpstreamResponse) : Except String JVal :=
  if resp.ok then
    .ok (.obj [("matches", resp.json.getField "matches"),
               ("files", resp.json.getField "files"),
               ("counts", resp.json.getField "counts"),
               ("pattern", resp.json.getField "pattern"),
               ("pathFilter", resp.json.getField "path_filter"),
               ("totalMatches", resp.json.getField "total_matches"),
               ("filesSearched", resp.json.getField "files_searched"),
               ("filesWithMatches", resp.json.getField "files_with_matches"),
               ("truncated", resp.json.getField "truncated"),
               ("options", resp.json.getField "options"),
               ("subtree", .str subtree),
               ("repositoryId", .str repoId)])
  else .error ("Nia API error: " ++ resp.bodyText)

end Chromium

namespace Epstein

/-- The `searchArchive` `sourceType` enum, default `"all"`. -/
inductive SourceType where
  | all
  | archive
  | biographical
deriving DecidableEq, Repr

def SourceType.wire : SourceType → String
  | .all => "all"
  | .archive => "archive"
  | .biographical => "biographical"

/-- `getDefaultArchiveSource()` over the configured
`NIA_EPSTEIN_ARCHIVE_SOURCES` list. -/
def getDefaultArchiveSource (archive : List String) :
    Except String String :=
  match archive with
  | [] => .error "NIA_EPSTEIN_ARCHIVE_SOURCES not configured"
  | d :: _ => .ok d

/-- `repoId || getDefaultArchiveSource()` — the empty string is falsy
and also falls back to the default. -/
def resolveRepoId (repoId : Option String) (archive : List String) :
    Except String String :=
  match repoId with
  | some s => if s = "" then getDefaultArchiveSource archive else .ok s
  | none => getDefaultArchiveSource archive

/-- `searchArchive`: select the repositories by `sourceType`, fail when
the selection is empty, then POST `/search/query`. -/
def searchArchivePlan (archive bio : List String) (query : String)
    (sourceType : Option SourceType) : Except String NiaRequest :=
  let st := sourceType.getD .all
  let repos :=
    match st with
    | .archive => archive
    | .biographical => bio
    | .all => archive ++ bio
  if repos.isEmpty then
    .error ("No Epstein " ++ st.wire ++
      " sources configured. Check your .env")
  else
    .ok ⟨.searchQuery, some
      [("messages", .arr [.obj [("role", .str "user"),
          ("content", .str query)]]),
       ("search_mode", .str "repositories"),
       ("include_sources", .bool true),
       ("repositories", .arr (repos.map JVal.str))]⟩

/-- `browseArchive`: GET `/repositories/{id}/tree`. -/
def browseArchivePlan (archive : List String) (repoId : Option String) :
    Except String NiaRequest := do
  let id ← resolveRepoId repoId archive
  pure ⟨.repoTree id, none⟩

/-- `readArchiveDoc`: GET `/repositories/{id}/content?path=`. -/
def readArchiveDocPlan (archive : List String) (path : String)
    (repoId : Option String) : Except String NiaRequest := do
  let id ← resolveRepoId repoId archive
  pure ⟨.repoContent id path, none⟩

/-- `getSourceContent` (Epstein variant): GET
`/repositories/{id}/content?path=`. -/
def getSourceContentPlan (archive : List String) (path : String)
    (repoId : Option String) : Except String NiaRequest := do
  let id ← resolveRepoId repoId archive
  pure ⟨.repoContent id path, none⟩

/-- The `grepArchive` input schema. -/
structure RawGrepArchive where
  pattern : String
  path : Option String
  repoId : Option String
  contextLines : Option Int
  linesAfter : Option Int
  linesBefore : Option Int
  caseSensitive : Option Bool
  wholeWord : Option Bool
  fixedString : Option Bool
  maxMatchesPerFile : Option Int
  maxTotalMatches : Option Int
  outputMode : Option OutputMode
  highlight : Option Bool
  includeLineNumbers : Option Bool
  groupByFile : Option Bool
  exhaustive : Option Bool
deriving Repr

/-- `grepArchive` arguments after zod validation. -/
structure GrepArchiveArgs where
  pattern : String
  path : String
  repoId : Option String
  contextLines : Option Int
  linesAfter : Option Int
  linesBefore : Option Int
  caseSensitive : Bool
  wholeWord : Bool
  fixedString : Bool
  maxMatchesPerFile : Int
  maxTotalMatches : Int
  outputMode : OutputMode
  highlight : Bool
  includeLineNumbers : Bool
  groupByFile : Bool
  exhaustive : Bool
deriving Repr

def validateGrepArchive (r : RawGrepArchive) :
    Except String GrepArchiveArgs :=
  if zOutOfRange 0 10 r.contextLines then
    .error "Invalid contextLines: number out of range"
  else if zOutOfRange 0 20 r.linesAfter then
    .error "Invalid linesAfter: number out of range"
  else if zOutOfRange 0 20 r.linesBefore then
    .error "Invalid linesBefore: number out of range"
  else if zOutOfRange 1 100 r.maxMatchesPerFile then
    .error "Invalid maxMatchesPerFile: number out of range"
  else if zOutOfRange 1 1000 r.maxTotalMatches then
    .error "Invalid maxTotalMatches: number out of range"
  else
    .ok ⟨r.pattern, r.path.getD "", r.repoId, r.contextLines,
      r.linesAfter, r.linesBefore, r.caseSensitive.getD false,
      r.wholeWord.getD false, r.fixedString.getD false,
      r.maxMatchesPerFile.getD 10, r.maxTotalMatches.getD 100,
      r.outputMode.getD .content, r.highlight.getD false,
      r.includeLineNumbers.getD true, r.groupByFile.getD true,
      r.exhaustive.getD true⟩

/-- The `grepArchive` request body. -/
def buildGrepArchiveBody (a : GrepArchiveArgs) : List (String × JVal) :=
  [("pattern", .str a.pattern),
   ("context_lines", .num (a.contextLines.getD 3))]
  ++ (if a.path ≠ "" then [("path", .str a.path)] else [])
  ++ optNumField "A" a.linesAfter
  ++ optNumField "B" a.linesBefore
  ++ [("case_sensitive", .bool a.caseSensitive),
      ("whole_word", .bool a.wholeWord),
      ("fixed_string", .bool a.fixedString),
      ("max_matches_per_file", .num a.maxMatchesPerFile),
      ("max_total_matches", .num a.maxTotalMatches),
      ("output_mode", .str a.outputMode.wire),
      ("highlight", .bool a.highlight),
      ("include_line_numbers", .bool a.includeLineNumbers),
      ("group_by_file", .bool a.groupByFile),
      ("exhaustive", .bool a.exhaustive)]

/-- `grepArchive`: POST `/repositories/{id}/grep`. -/
def grepArchivePlan (archive : List String) (r : RawGrepArchive) :
    Except String NiaRequest := do
  let a ← validateGrepArchive r
  let id ← resolveRepoId a.repoId archive
  pure ⟨.repoGrep id, some (buildGrepArchiveBody a)⟩

/-- A `RawGrepArchive` with only the required `pattern` supplied. -/
def rawGrepArchiveMin (pat : String) : RawGrepArchive :=
  ⟨pat, none, none, none, none, none, none, none, none, none, none,
    none, none, none, none, none⟩

/-- `searchArchive` returns the upstream JSON unchanged on success. -/
def searchArchiveRespond (resp : UpstreamResponse) : Except String JVal :=
  if resp.ok then .ok resp.json
  else .error ("Nia API error: " ++ resp.bodyText)

def browseArchiveRespond (repoId : String) (resp : UpstreamResponse) :
    Except String JVal :=
  if resp.ok then
    .ok (.obj [("tree", resp.json.getField "tree_string"),
               ("fileCount", resp.json.getField "file_count"),
               ("repoId", .str repoId)])
  else .error ("Nia API error: " ++ resp.bodyText)

def readArchiveDocRespond (path repoId : String)
    (resp : UpstreamResponse) : Except String JVal :=
  if resp.ok then
    .ok (.obj [("path", .str path),
               ("content", resp.json.getField "content"),
               ("metadata", resp.json.getField "metadata"),
               ("repoId", .str repoId)])
  else .error ("Nia API error: " ++ resp.bodyText)

def grepArchiveRespond (repoId : String) (resp : UpstreamResponse) :
    Except String JVal :=
  if resp.ok then
    .ok (.obj [("matches", resp.json.getField "matches"),
               ("files", resp.json.getField "files"),
               ("counts", resp.json.getField "counts"),
               ("pattern", resp.json.getField "pattern"),
               ("pathFilter", resp.json.getField "path_filter"),
               ("totalMatches", resp.json.getField "total_matches"),
               ("filesSearched", resp.json.getField "files_searched"),
               ("filesWithMatches", resp.json.getField "files_with_matches"),
               ("truncated", resp.json.getField "truncated"),
               ("options", resp.json.getField "options"),
               ("repoId", .str repoId)])
  else .error ("Nia API error: " ++ resp.bodyText)

def webSearchRespond (resp : UpstreamResponse) : Except String JVal :=
  if resp.ok then .ok resp.json
  else .error ("Nia API error: " ++ resp.bodyText)

def getSourceContentRespond (resp : UpstreamResponse) :
    Except String JVal :=
  if resp.ok then
    .ok (.obj [("success", resp.json.getField "success"),
               ("content", resp.json.getField "content"),
               ("metadata", resp.json.getField "metadata")])
  else .error ("Nia API error: " ++ resp.bodyText)

end Epstein

namespace Naval

/-- `getSourceId()`: the single `NAVAL_NIA_SOURCE` value; unset or empty
(falsy) throws. -/
def getSourceId (navalSource : Option String) : Except String String :=
  match navalSource with
  | none => .error "NAVAL_NIA_SOURCE environment variable is not set"
  | some s =>
    if s = "" then
      .error "NAVAL_NIA_SOURCE environment variable is not set"
    else .ok s

/-- The `grepEssays` input schema. -/
structure RawGrepEssays where
  pattern : String
  path : Option String
  contextLines : Option Int
  linesAfter : Option Int
  linesBefore : Option Int
  caseSensitive : Option Bool
  wholeWord : Option Bool
  fixedString : Option Bool
  maxMatchesPerFile : Option Int
  maxTotalMatches : Option Int
  outputMode : Option OutputMode
  highlight : Option Bool
deriving Repr

/-- `grepEssays` arguments after zod validation. -/
structure EssaysGrepArgs where
  pattern : String
  path : String
  contextLines : Option Int
  linesAfter : Option Int
  linesBefore : Option Int
  caseSensitive : Bool
  wholeWord : Bool
  fixedString : Bool
  maxMatchesPerFile : Int
  maxTotalMatches : Int
  outputMode : OutputMode
  highlight : Bool
deriving Repr

def validateGrepEssays (r : RawGrepEssays) : Except String EssaysGrepArgs :=
  if zOutOfRange 0 10 r.contextLines then
    .error "Invalid contextLines: number out of range"
  else if zOutOfRange 0 20 r.linesAfter then
    .error "Invalid linesAfter: number out of range"
  else if zOutOfRange 0 20 r.linesBefore then
    .error "Invalid linesBefore: number out of range"
  else if zOutOfRange 1 100 r.maxMatchesPerFile then
    .error "Invalid maxMatchesPerFile: number out of range"
  else if zOutOfRange 1 1000 r.maxTotalMatches then
    .error "Invalid maxTotalMatches: number out of range"
  else
    .ok ⟨r.pattern, r.path.getD "/", r.contextLines, r.linesAfter,
      r.linesBefore, r.caseSensitive.getD false, r.wholeWord.getD false,
      r.fixedString.getD false, r.maxMatchesPerFile.getD 10,
      r.maxTotalMatches.getD 100, r.outputMode.getD .content,
      r.highlight.getD false⟩

/-- The `grepEssays` object literal passed to `JSON.stringify`: the
possibly-`undefined` `linesAfter`/`linesBefore` are assigned as-is
(`A`, `B`); `context_lines` always carries `contextLines ?? 3`. -/
def buildGrepEssaysObj (a : EssaysGrepArgs) : List (String × JVal) :=
  [("pattern", .str a.pattern),
   ("path", .str a.path),
   ("context_lines", .num (a.contextLines.getD 3)),
   ("A", jnumOpt a.linesAfter),
   ("B", jnumOpt a.linesBefore),
   ("case_sensitive", .bool a.caseSensitive),
   ("whole_word", .bool a.wholeWord),
   ("fixed_string", .bool a.fixedString),
   ("max_matches_per_file", .num a.maxMatchesPerFile),
   ("max_total_matches", .num a.maxTotalMatches),
   ("output_mode", .str a.outputMode.wire),
   ("highlight", .bool a.highlight)]

/-- `grepEssays`: POST `/data-sources/{id}/grep` with the serialized
(`undefined`-dropping) body. -/
def grepEssaysPlan (navalSource : Option String) (r : RawGrepEssays) :
    Except String NiaRequest := do
  let a ← validateGrepEssays r
  let id ← getSourceId navalSource
  pure ⟨.dataSourceGrep id, some (serializeBody (buildGrepEssaysObj a))⟩

/-- A `RawGrepEssays` with only the required `pattern` supplied. -/
def rawGrepEssaysMin (pat : String) : RawGrepEssays :=
  ⟨pat, none, none, none, none, none, none, none, none, none, none,
    none⟩

def grepEssaysRespond (resp : UpstreamResponse) : Except String JVal :=
  if resp.ok then
    .ok (.obj [("matches", resp.json.getField "matches"),
               ("files", resp.json.getField "files"),
               ("counts", resp.json.getField "counts"),
               ("pattern", resp.json.getField "pattern"),
               ("pathFilter", resp.json.getField "path_filter"),
               ("totalMatches", resp.json.getField "total_matches"),
               ("filesSearched", resp.json.getField "files_searched")])
  else .error ("Nia API error: " ++ resp.bodyText)

end Naval

/-! ### Claim theorems for the tool proxy layer -/

theorem isEmpty_eq_false_of_ne_nil {α : Type} {l : List α} (h : l ≠ []) :
    l.isEmpty = false := by
  cases l with
  | nil => exact absurd rfl h
  | cons a t => rfl

theorem exceptOk_validateGrepDocs (r : Chromium.RawGrepDocs)
    (h : capsOutOfRange r.contextLines r.linesAfter r.linesBefore
      r.maxMatchesPerFile r.maxTotalMatches = true) :
    exceptOk (Chromium.validateGrepDocs r) = false := by
  unfold Chromium.validateGrepDocs
  split_ifs with h1 h2 h3 h4 h5
  · rfl
  · rfl
  · rfl
  · rfl
  · rfl
  · exfalso
    simp only [capsOutOfRange, Bool.or_eq_true] at h
    rcases h with ((((h | h) | h) | h) | h)
    exacts [h1 h, h2 h, h3 h, h4 h, h5 h]

theorem exceptOk_validateGrepCode (r : Chromium.RawGrepCode)
    (h : capsOutOfRange r.contextLines r.linesAfter r.linesBefore
      r.maxMatchesPerFile r.maxTotalMatches = true) :
    exceptOk (Chromium.validateGrepCode r) = false := by
  unfold Chromium.validateGrepCode
  split_ifs with h1 h2 h3 h4 h5
  · rfl
  · rfl
  · rfl
  · rfl
  · rfl
  · exfalso
    simp only [capsOutOfRange, Bool.or_eq_true] at h
    rcases h with ((((h | h) | h) | h) | h)
    exacts [h1 h, h2 h, h3 h, h4 h, h5 h]

theorem exceptOk_validateGrepArchive (r : Epstein.RawGrepArchive)
    (h : capsOutOfRange r.contextLines r.linesAfter r.linesBefore
      r.maxMatchesPerFile r.maxTotalMatches = true) :
    exceptOk (Epstein.validateGrepArchive r) = false := by
  unfold Epstein.validateGrepArchive
  split_ifs with h1 h2 h3 h4 h5
  · rfl
  · rfl
  · rfl
  · rfl
  · rfl
  · exfalso
    simp only [capsOutOfRange, Bool.or_eq_true] at h
    rcases h with ((((h | h) | h) | h) | h)
    exacts [h1 h, h2 h, h3 h, h4 h, h5 h]

theorem exceptOk_validateGrepEssays (r : Naval.RawGrepEssays)
    (h : capsOutOfRange r.contextLines r.linesAfter r.linesBefore
      r.maxMatchesPerFile r.maxTotalMatches = true) :
    exceptOk (Naval.validateGrepEssays r) = false := by
  unfold Naval.validateGrepEssays
  split_ifs with h1 h2 h3 h4 h5
  · rfl
  · rfl
  · rfl
  · rfl
  · rfl
  · exfalso
    simp only [capsOutOfRange, Bool.or_eq_true] at h
    rcases h with ((((h | h) | h) | h) | h)
    exacts [h1 h, h2 h, h3 h, h4 h, h5 h]

/-- C3 counterexample.  `grepArchive` invoked with
`maxTotalMatches = 5000` is rejected by schema validation: the plan is
an error and no request body is built at all — in particular no body
with `max_total_matches = 1000`, contradicting the claimed clamping. -/
theorem grep_caps_clamping_counterexample :
    Epstein.grepArchivePlan ["owner/epstein-archive"]
      { Epstein.rawGrepArchiveMin "foo" with maxTotalMatches := some 5000 } =
      .error "Invalid maxTotalMatches: number out of range" ∧
    planBodyHasKey (Epstein.grepArchivePlan ["owner/epstein-archive"]
      { Epstein.rawGrepArchiveMin "foo" with maxTotalMatches := some 5000 })
      "max_total_matches" = false :=
  ⟨rfl, rfl⟩

/-- C3 (amended).  A grep-style invocation with any cap outside its
documented bounds is rejected by schema validation before the request
is built: the plan of all four grep tools is an error (nothing is
clamped, nothing is forwarded upstream). -/
theorem grep_caps_schema_rejected
    (srcs : List String) (rA : Epstein.RawGrepArchive)
    (hA : capsOutOfRange rA.contextLines rA.linesAfter rA.linesBefore
      rA.maxMatchesPerFile rA.maxTotalMatches = true)
    (docs : List String) (rD : Chromium.RawGrepDocs)
    (hD : capsOutOfRange rD.contextLines rD.linesAfter rD.linesBefore
      rD.maxMatchesPerFile rD.maxTotalMatches = true)
    (repos : List String) (rC : Chromium.RawGrepCode)
    (hC : capsOutOfRange rC.contextLines rC.linesAfter rC.linesBefore
      rC.maxMatchesPerFile rC.maxTotalMatches = true)
    (nav : Option String) (rE : Naval.RawGrepEssays)
    (hE : capsOutOfRange rE.contextLines rE.linesAfter rE.linesBefore
      rE.maxMatchesPerFile rE.maxTotalMatches = true) :
    exceptOk (Epstein.grepArchivePlan srcs rA) = false ∧
    exceptOk (Chromium.grepChromiumDocsPlan docs rD) = false ∧
    exceptOk (Chromium.grepChromiumCodePlan repos rC) = false ∧
    exceptOk (Naval.grepEssaysPlan nav rE) = false := by
  refine ⟨?_, ?_, ?_, ?_⟩
  · have hv := exceptOk_validateGrepArchive rA hA
    cases he : Epstein.validateGrepArchive rA with
    | ok a => rw [he] at hv; simp [exceptOk] at hv
    | error e =>
      unfold Epstein.grepArchivePlan
      rw [he]
      rfl
  · have hv := exceptOk_validateGrepDocs rD hD
    cases he : Chromium.validateGrepDocs rD with
    | ok a => rw [he] at hv; simp [exceptOk] at hv
    | error e =>
      unfold Chromium.grepChromiumDocsPlan
      rw [he]
      rfl
  · have hv := exceptOk_validateGrepCode rC hC
    cases he : Chromium.validateGrepCode rC with
    | ok a => rw [he] at hv; simp [exceptOk] at hv
    | error e =>
      unfold Chromium.grepChromiumCodePlan
      rw [he]
      rfl
  · have hv := exceptOk_validateGrepEssays rE hE
    cases he : Naval.validateGrepEssays rE with
    | ok a => rw [he] at hv; simp [exceptOk] at hv
    | error e =>
      unfold Naval.grepEssaysPlan
      rw [he]
      rfl

theorem grep_caps_schema_rejected_witness :
    exceptOk (Epstein.grepArchivePlan ["r"]
      { Epstein.rawGrepArchiveMin "foo" with
          maxTotalMatches := some 5000 }) = false ∧
    exceptOk (Chromium.grepChromiumDocsPlan ["d"]
      { Chromium.rawGrepDocsMin "foo" with
          maxTotalMatches := some 5000 }) = false ∧
    exceptOk (Chromium.grepChromiumCodePlan []
      { Chromium.rawGrepCodeMin "foo" with
          contextLines := some 99 }) = false ∧
    exceptOk (Naval.grepEssaysPlan (some "s")
      { Naval.rawGrepEssaysMin "foo" with
          maxMatchesPerFile := some 0 }) = false :=
  grep_caps_schema_rejected ["r"] _ (by decide) ["d"] _ (by decide)
    [] _ (by decide) (some "s") _ (by decide)

/-- C4 counterexample.  With an empty configured repository list,
`grepChromiumCode` maps the unknown subtree `zzz` to an identifier that
is certainly not in the (empty) configured list, yet throws no error:
the request is built and would be issued. -/
theorem subtree_unknown_empty_config_counterexample :
    exceptOk (Chromium.grepChromiumCodePlan []
      { Chromium.rawGrepCodeMin "p" with subtree := some "zzz" }) = true ∧
    "chromium/chromium/tree/main/zzz" ∉ ([] : List String) :=
  ⟨rfl, by simp⟩

/-- C4 (amended).  Subtree names map to
`chromium/chromium/tree/main/<s>`; `searchChromium` rejects any
non-empty subtree list containing an unknown name before the request,
with a message enumerating the valid subtrees; `grepChromiumCode` does
the same for its resolved subtree, but only when the configured
repository list is non-empty (with an empty configured list it skips
the check and issues the request). -/
theorem subtree_scope_mapping_validation :
    (∀ s : String,
      Chromium.mapSubtree s = "chromium/chromium/tree/main/" ++ s) ∧
    (∀ (allDocs allRepos : List String) (query : String) (l : List String)
      (inc : Option Bool), l ≠ [] →
      (l.map Chromium.mapSubtree).filter
        (fun rp => decide (rp ∉ allRepos)) ≠ [] →
      Chromium.searchChromiumPlan allDocs allRepos query (some l) inc =
        .error (Chromium.invalidSubtreesMsg
          ((l.map Chromium.mapSubtree).filter
            (fun rp => decide (rp ∉ allRepos))) allRepos)) ∧
    (∀ (repos : List String) (r : Chromium.RawGrepCode)
      (a : Chromium.GrepCodeArgs), Chromium.validateGrepCode r = .ok a →
      repos ≠ [] →
      Chromium.mapSubtree (Chromium.resolvedSubtreeOf a.subtree) ∉ repos →
      Chromium.grepChromiumCodePlan repos r =
        .error (Chromium.subtreeNotFoundMsg
          (Chromium.resolvedSubtreeOf a.subtree) repos)) := by
  refine ⟨fun s => rfl, ?_, ?_⟩
  · intro allDocs allRepos query l inc hl hinv
    have h1 := isEmpty_eq_false_of_ne_nil hl
    have h2 := isEmpty_eq_false_of_ne_nil hinv
    simp only [Chromium.searchChromiumPlan, h1, h2, Bool.false_eq_true,
      if_false]
    rfl
  · intro repos r a hval hrepos hnotin
    unfold Chromium.grepChromiumCodePlan
    rw [hval]
    show (if repos.length > 0 ∧
        Chromium.mapSubtree (Chromium.resolvedSubtreeOf a.subtree) ∉ repos
      then _ else _) = _
    rw [if_pos ⟨List.length_pos.mpr hrepos, hnotin⟩]

theorem subtree_scope_mapping_validation_witness :
    Chromium.searchChromiumPlan [] ["chromium/chromium/tree/main/net"] "q"
      (some ["zzz"]) none =
      .error (Chromium.invalidSubtreesMsg
        ["chromium/chromium/tree/main/zzz"]
        ["chromium/chromium/tree/main/net"]) ∧
    Chromium.grepChromiumCodePlan ["chromium/chromium/tree/main/net"]
      { Chromium.rawGrepCodeMin "p" with subtree := some "zzz" } =
      .error (Chromium.subtreeNotFoundMsg "zzz"
        ["chromium/chromium/tree/main/net"]) :=
  ⟨subtree_scope_mapping_validation.2.1 [] ["chromium/chromium/tree/main/net"]
      "q" ["zzz"] none (by decide) (by decide),
    subtree_scope_mapping_validation.2.2 ["chromium/chromium/tree/main/net"]
      { Chromium.rawGrepCodeMin "p" with subtree := some "zzz" }
      ⟨"p", some "zzz", "", none, none, none, false, false, false, 10, 100,
        OutputMode.content, false, true, true, true⟩
      rfl (by decide) (by decide)⟩

/-- C5 counterexample.  `grepChromiumCode` accepts an optional source
scope but does not use the first configured entry: with an empty
configured list it raises no configuration error (the request is
built), and with a configured list not containing `base` an omitted
subtree resolves to `base` and fails, instead of using the first
entry. -/
theorem default_source_selection_counterexample :
    exceptOk (Chromium.grepChromiumCodePlan []
      (Chromium.rawGrepCodeMin "x")) = true ∧
    Chromium.grepChromiumCodePlan [Chromium.mapSubtree "net"]
      (Chromium.rawGrepCodeMin "x") =
      .error (Chromium.subtreeNotFoundMsg "base"
        [Chromium.mapSubtree "net"]) :=
  ⟨rfl, rfl⟩

/-- C5 (amended).  The browse/list/read/grep operations over doc and
archive sources use the first configured entry when no identifier is
supplied and raise a configuration error before any request when their
source list is empty; `grepChromiumCode` is the exception — its
omitted subtree resolves to `base` regardless of the configured list,
and with an empty configured list it performs no configuration check
and still builds the request. -/
theorem default_source_selection :
    (∀ (d : String) (t : List String),
      planSource (Chromium.browseChromiumDocsPlan (d :: t) none) = some d) ∧
    (Chromium.browseChromiumDocsPlan [] none =
      .error "CHROMIUM_DOCS_SOURCES not configured") ∧
    (∀ (d : String) (t : List String) (p : Option String),
      planSource (Chromium.listChromiumDocsDirectoryPlan (d :: t) p none) =
        some d) ∧
    (∀ p : Option String, Chromium.listChromiumDocsDirectoryPlan [] p none =
      .error "CHROMIUM_DOCS_SOURCES not configured") ∧
    (∀ (d : String) (t : List String) (p : String),
      planSource (Chromium.readChromiumDocPlan (d :: t) p none) = some d) ∧
    (∀ p : String, Chromium.readChromiumDocPlan [] p none =
      .error "CHROMIUM_DOCS_SOURCES not configured") ∧
    (∀ (d : String) (t : List String) (pat : String),
      planSource (Chromium.grepChromiumDocsPlan (d :: t)
        (Chromium.rawGrepDocsMin pat)) = some d) ∧
    (∀ pat : String, Chromium.grepChromiumDocsPlan []
        (Chromium.rawGrepDocsMin pat) =
      .error "CHROMIUM_DOCS_SOURCES not configured") ∧
    (∀ (d : String) (t : List String),
      planSource (Epstein.browseArchivePlan (d :: t) none) = some d) ∧
    (Epstein.browseArchivePlan [] none =
      .error "NIA_EPSTEIN_ARCHIVE_SOURCES not configured") ∧
    (∀ (d : String) (t : List String) (p : String),
      planSource (Epstein.readArchiveDocPlan (d :: t) p none) = some d) ∧
    (∀ p : String, Epstein.readArchiveDocPlan [] p none =
      .error "NIA_EPSTEIN_ARCHIVE_SOURCES not configured") ∧
    (∀ (d : String) (t : List String) (pat : String),
      planSource (Epstein.grepArchivePlan (d :: t)
        (Epstein.rawGrepArchiveMin pat)) = some d) ∧
    (∀ pat : String, Epstein.grepArchivePlan []
        (Epstein.rawGrepArchiveMin pat) =
      .error "NIA_EPSTEIN_ARCHIVE_SOURCES not configured") ∧
    (∀ (d : String) (t : List String) (p : String),
      planSource (Epstein.getSourceContentPlan (d :: t) p none) = some d) ∧
    (∀ p : String, Epstein.getSourceContentPlan [] p none =
      .error "NIA_EPSTEIN_ARCHIVE_SOURCES not configured") ∧
    (∀ pat : String,
      planSource (Chromium.grepChromiumCodePlan []
        (Chromium.rawGrepCodeMin pat)) =
        some (Chromium.mapSubtree "base")) := by
  refine ⟨fun d t => rfl, rfl, fun d t p => rfl, fun p => rfl,
    fun d t p => rfl, fun p => rfl, fun d t pat => rfl, fun pat => rfl,
    fun d t => rfl, rfl, fun d t p => rfl, fun p => rfl,
    fun d t pat => rfl, fun pat => rfl, fun d t p => rfl, fun p => rfl,
    fun pat => rfl⟩

/-- C6.  Every modeled tool response handler turns a non-success
upstream response into a thrown error carrying the upstream body text
(and therefore never returns a payload on a non-success response; the
layer consumes exactly one response per call — no retry). -/
theorem tool_upstream_error_propagation (resp : UpstreamResponse)
    (h : resp.ok = false) (id sub repoId p : String) :
    Chromium.searchChromiumRespond resp =
      .error ("Nia API error: " ++ resp.bodyText) ∧
    Chromium.browseChromiumDocsRespond id resp =
      .error ("Nia API error: " ++ resp.bodyText) ∧
    Chromium.listChromiumDocsDirectoryRespond id resp =
      .error ("Nia API error: " ++ resp.bodyText) ∧
    Chromium.readChromiumDocRespond id resp =
      .error ("Nia API error: " ++ resp.bodyText) ∧
    Chromium.grepChromiumDocsRespond id resp =
      .error ("Nia API error: " ++ resp.bodyText) ∧
    Chromium.grepChromiumCodeRespond sub repoId resp =
      .error ("Nia API error: " ++ resp.bodyText) ∧
    Epstein.searchArchiveRespond resp =
      .error ("Nia API error: " ++ resp.bodyText) ∧
    Epstein.browseArchiveRespond repoId resp =
      .error ("Nia API error: " ++ resp.bodyText) ∧
    Epstein.readArchiveDocRespond p repoId resp =
      .error ("Nia API error: " ++ resp.bodyText) ∧
    Epstein.grepArchiveRespond repoId resp =
      .error ("Nia API error: " ++ resp.bodyText) ∧
    Epstein.webSearchRespond resp =
      .error ("Nia API error: " ++ resp.bodyText) ∧
    Epstein.getSourceContentRespond resp =
      .error ("Nia API error: " ++ resp.bodyText) ∧
    Naval.grepEssaysRespond resp =
      .error ("Nia API error: " ++ resp.bodyText) := by
  refine ⟨?_, ?_, ?_, ?_, ?_, ?_, ?_, ?_, ?_, ?_, ?_, ?_, ?_⟩ <;>
    simp [Chromium.searchChromiumRespond, Chromium.browseChromiumDocsRespond,
      Chromium.listChromiumDocsDirectoryRespond,
      Chromium.readChromiumDocRespond, Chromium.grepChromiumDocsRespond,
      Chromium.grepChromiumCodeRespond, Epstein.searchArchiveRespond,
      Epstein.browseArchiveRespond, Epstein.readArchiveDocRespond,
      Epstein.grepArchiveRespond, Epstein.webSearchRespond,
      Epstein.getSourceContentRespond, Naval.grepEssaysRespond, h]

theorem tool_upstream_error_propagation_witness :
    Epstein.searchArchiveRespond ⟨false, "boom", .null⟩ =
      .error ("Nia API error: " ++ "boom") :=
  (tool_upstream_error_propagation ⟨false, "boom", .null⟩ rfl
    "i" "s" "r" "p").2.2.2.2.2.2.1

/-- C9 counterexample.  A `grepEssays` invocation that leaves
`contextLines` undefined (it has no schema default) still produces a
serialized body containing the `context_lines` key (code-level
fallback 3) — the claimed "key present iff parameter defined" fails. -/
theorem grep_body_undefined_counterexample :
    planBodyHasKey (Naval.grepEssaysPlan (some "src")
      (Naval.rawGrepEssaysMin "q")) "context_lines" = true ∧
    (Naval.rawGrepEssaysMin "q").contextLines = none :=
  ⟨rfl, rfl⟩

/-- C9 (amended).  Serialized grep bodies never contain `null` or
`undefined` values; the optional `linesAfter`/`linesBefore` parameters
produce the `A`/`B` keys exactly when defined (grepEssays via
`JSON.stringify` dropping `undefined`, grepChromiumCode via conditional
assignment); `context_lines` is the exception — it is always sent, with
code-level fallback 3 when `contextLines` is undefined — and
`grepChromiumCode` omits `path` exactly when it is empty. -/
theorem grep_body_undefined_omission :
    (∀ a : Naval.EssaysGrepArgs,
      assocHasKey (serializeBody (Naval.buildGrepEssaysObj a)) "A" =
        a.linesAfter.isSome ∧
      assocHasKey (serializeBody (Naval.buildGrepEssaysObj a)) "B" =
        a.linesBefore.isSome ∧
      assocHasKey (serializeBody (Naval.buildGrepEssaysObj a))
        "context_lines" = true ∧
      (serializeBody (Naval.buildGrepEssaysObj a)).all
        (fun kv => !kv.2.isNull && !kv.2.isJsUndefined) = true) ∧
    (∀ a : Chromium.GrepCodeArgs,
      assocHasKey (Chromium.buildGrepCodeBody a) "A" =
        a.linesAfter.isSome ∧
      assocHasKey (Chromium.buildGrepCodeBody a) "B" =
        a.linesBefore.isSome ∧
      assocHasKey (Chromium.buildGrepCodeBody a) "context_lines" = true ∧
      assocHasKey (Chromium.buildGrepCodeBody a) "path" =
        decide (a.path ≠ "") ∧
      (Chromium.buildGrepCodeBody a).all
        (fun kv => !kv.2.isNull && !kv.2.isJsUndefined) = true) := by
  constructor
  · intro a
    obtain ⟨pat, path, cl, la, lb, cs, ww, fs, mpf, mtm, om, hl⟩ := a
    refine ⟨?_, ?_, ?_, ?_⟩ <;>
      cases la <;> cases lb <;>
        simp [Naval.buildGrepEssaysObj, serializeBody, assocHasKey,
          jnumOpt, JVal.isJsUndefined, JVal.isNull]
  · intro a
    obtain ⟨pat, sub, path, cl, la, lb, cs, ww, fs, mpf, mtm, om, hl,
      iln, gbf, exh⟩ := a
    refine ⟨?_, ?_, ?_, ?_, ?_⟩ <;>
      cases la <;> cases lb <;>
        by_cases hp : path = "" <;>
          simp [Chromium.buildGrepCodeBody, assocHasKey, optNumField,
            JVal.isJsUndefined, JVal.isNull, hp]

end NiaApp
